import Mathlib

/-!
Verification of the virtual-fitting studio's image-request compositor and
mask-based editing pipeline (`src/services/geminiService.ts` final variant,
plus the batch state machine in the main application component).

The TypeScript source is shallowly embedded: pure pixel/string computations
become Lean functions, JS exceptions become `Except`, `Promise.all`'s slot
array becomes an explicit fold over an arbitrary completion order, and the
React state updates of `generateStudio` become an explicit state-passing
step function.
-/

/-- Substring test on character lists, mirroring JS `String.includes`:
`pat` occurs contiguously somewhere in the list. -/
def listIncludes (pat : List Char) : List Char → Bool
  | [] => pat.isEmpty
  | c :: rest => pat.isPrefixOf (c :: rest) || listIncludes pat rest

/-- JS `s.includes(pat)`. -/
def strIncludes (s pat : String) : Bool :=
  listIncludes pat.toList s.toList

/-- A thrown JS error as observed by `retryOperation`: its `.message`, the
`JSON.stringify(error)` fallback used when the message is empty, and the
optional numeric `.status` / `.code` fields. -/
structure JsError where
  message : String
  serialized : String
  status : Option Nat
  code : Option Nat
  deriving DecidableEq, Repr

/-- JS `toLowerCase`, modelled character-wise (the ASCII fragment, which is
all the retry classifier's search patterns exercise). -/
def jsToLower (s : String) : String :=
  String.mk (s.data.map Char.toLower)

/-- `(error.message || JSON.stringify(error)).toLowerCase()` from
`retryOperation` (src/services/geminiService.ts:287). -/
def errText (e : JsError) : String :=
  jsToLower (if e.message = "" then e.serialized else e.message)

/-- The `message.includes('load failed') || message.includes('fetch failed')`
test (src/services/geminiService.ts:290). -/
def isLoadFailed (e : JsError) : Bool :=
  strIncludes (errText e) "load failed" || strIncludes (errText e) "fetch failed"

/-- `error.status === 503 || error.code === 503 || message.includes('overloaded')
|| message.includes('503')` (src/services/geminiService.ts:294). -/
def isRetryable (e : JsError) : Bool :=
  e.status == some 503 || e.code == some 503 ||
    strIncludes (errText e) "overloaded" || strIncludes (errText e) "503"

/-- The translated user-facing network error thrown for "load failed" /
"fetch failed" messages (src/services/geminiService.ts:291). -/
def networkFailMessage : String :=
  "네트워크 전송 실패: 이미지 용량이 너무 크거나 인터넷 연결 문제입니다. (자동 최적화 적용됨)"

/-- The fresh `Error` object built from `networkFailMessage`. -/
def networkFailError : JsError :=
  { message := networkFailMessage, serialized := "", status := none, code := none }

/-- Shallow embedding of `retryOperation` (src/services/geminiService.ts:283-303).
`op n` is the outcome of the n-th invocation of the operation (0-indexed).
Returns the final outcome together with the list of backoff delays awaited,
in chronological order. -/
def retryOperation {α : Type} (op : Nat → Except JsError α) (retries : Nat)
    (delay : Nat) : Except JsError α × List Nat :=
  match op 0 with
  | .ok v => (.ok v, [])
  | .error e =>
    if isLoadFailed e then (.error networkFailError, [])
    else if isRetryable e then
      match retries with
      | 0 => (.error e, [])
      | r + 1 =>
        let inner := retryOperation (fun n => op (n + 1)) r (delay * 2)
        (inner.1, delay :: inner.2)
    else (.error e, [])

/-- `retryOperation` with the source's default parameters `retries = 3`,
`delay = 2000`. -/
def retryOperationDefault {α : Type} (op : Nat → Except JsError α) :
    Except JsError α × List Nat :=
  retryOperation op 3 2000

/-- An error that enters the retry loop: not a load/fetch failure, but
retryable (503-class). -/
def retryClassError (e : JsError) : Prop :=
  isLoadFailed e = false ∧ isRetryable e = true

instance (e : JsError) : Decidable (retryClassError e) := by
  unfold retryClassError; infer_instance

/-- Shallow embedding of `resolveSeed` (src/services/geminiService.ts:306-310).
`rnd` is the value drawn by `Math.random()`, a real in [0, 1); the random
branch computes `Math.floor(rnd * 2147483647)`. -/
def resolveSeed (seed : Option Int) (rnd : ℚ) : Int :=
  match seed with
  | some s => if s ≠ -1 then s else ⌊rnd * 2147483647⌋
  | none => ⌊rnd * 2147483647⌋

example : retryOperationDefault (fun n =>
    if n < 2 then Except.error ⟨"overloaded", "", some 503, none⟩
    else Except.ok 7) = (.ok 7, [2000, 4000]) := by rfl

example : resolveSeed (some 42) (1/3) = 42 := by decide

lemma retryOperation_load_failed {α : Type} (op : Nat → Except JsError α)
    (r d : Nat) (e : JsError) (h0 : op 0 = .error e)
    (hl : isLoadFailed e = true) :
    retryOperation op r d = (.error networkFailError, []) := by
  rw [retryOperation, h0]
  simp [hl]

lemma retryOperation_other_error {α : Type} (op : Nat → Except JsError α)
    (r d : Nat) (e : JsError) (h0 : op 0 = .error e)
    (hl : isLoadFailed e = false) (hr : isRetryable e = false) :
    retryOperation op r d = (.error e, []) := by
  rw [retryOperation, h0]
  simp [hl, hr]

lemma retryOperation_retry_success {α : Type} (op : Nat → Except JsError α)
    (r d k : Nat) (v : α) (hkr : k ≤ r)
    (hprev : ∀ j < k, ∃ e, op j = .error e ∧ retryClassError e)
    (hk : op k = .ok v) :
    retryOperation op r d = (.ok v, (List.range k).map fun j => d * 2 ^ j) := by
  induction k generalizing op r d with
  | zero => rw [retryOperation, hk]; rfl
  | succ k ih =>
    obtain ⟨e, he0, hrc⟩ := hprev 0 (Nat.succ_pos k)
    obtain ⟨r2, rfl⟩ : ∃ r2, r = r2 + 1 := ⟨r - 1, by omega⟩
    rw [retryOperation, he0]
    simp only [hrc.1, hrc.2, Bool.false_eq_true, if_false, if_true]
    rw [ih (fun n => op (n + 1)) r2 (d * 2) (by omega)
      (fun j hj => hprev (j + 1) (by omega)) hk]
    simp only [List.range_succ_eq_map, List.map_cons, List.map_map, pow_zero,
      mul_one, Prod.mk.injEq, true_and, List.cons.injEq]
    exact List.map_congr_left fun j _ => by
      simp only [Function.comp_apply, Nat.succ_eq_add_one, pow_succ]
      ring

lemma retryOperation_exhausted {α : Type} (op : Nat → Except JsError α)
    (r d : Nat) (e : JsError)
    (hprev : ∀ j < r, ∃ e2, op j = .error e2 ∧ retryClassError e2)
    (hr : op r = .error e) (hrc : retryClassError e) :
    retryOperation op r d = (.error e, (List.range r).map fun j => d * 2 ^ j) := by
  induction r generalizing op d with
  | zero =>
    rw [retryOperation, hr]
    simp [hrc.1, hrc.2]
  | succ r ih =>
    obtain ⟨e0, he0, hrc0⟩ := hprev 0 (Nat.succ_pos r)
    rw [retryOperation, he0]
    simp only [hrc0.1, hrc0.2, Bool.false_eq_true, if_false, if_true]
    rw [ih (fun n => op (n + 1)) (d * 2)
      (fun j hj => hprev (j + 1) (by omega)) hr]
    simp only [List.range_succ_eq_map, List.map_cons, List.map_map, pow_zero,
      mul_one, Prod.mk.injEq, true_and, List.cons.injEq]
    exact List.map_congr_left fun j _ => by
      simp only [Function.comp_apply, Nat.succ_eq_add_one, pow_succ]
      ring

/-- C1: `retryOperation` classifies every failure of the operation into
exactly three outcomes: (a) a message containing "load failed" or
"fetch failed" (case-insensitively) throws the translated user-facing error
immediately, with zero retries (no delays); (b) a 503-class error (status
503, code 503, or message containing "overloaded"/"503") is retried up to
`retries` times (default 3) with the delay doubling each attempt
(`delay`, `2*delay`, ... — 2000ms then 4000ms at the default), the success
value of any succeeding attempt being returned, and the last error
propagating unchanged once the retry budget is exhausted; (c) every other
error propagates immediately unchanged, with zero retries. -/
theorem C1_retryOperation_classification {α : Type} :
    (∀ (op : Nat → Except JsError α) (r d : Nat) (e : JsError),
      op 0 = .error e → isLoadFailed e = true →
      retryOperation op r d = (.error networkFailError, [])) ∧
    (∀ (op : Nat → Except JsError α) (r d k : Nat) (v : α),
      k ≤ r → (∀ j < k, ∃ e, op j = .error e ∧ retryClassError e) →
      op k = .ok v →
      retryOperation op r d = (.ok v, (List.range k).map fun j => d * 2 ^ j)) ∧
    (∀ (op : Nat → Except JsError α) (r d : Nat) (e : JsError),
      (∀ j < r, ∃ e2, op j = .error e2 ∧ retryClassError e2) →
      op r = .error e → retryClassError e →
      retryOperation op r d = (.error e, (List.range r).map fun j => d * 2 ^ j)) ∧
    (∀ (op : Nat → Except JsError α) (r d : Nat) (e : JsError),
      op 0 = .error e → isLoadFailed e = false → isRetryable e = false →
      retryOperation op r d = (.error e, [])) :=
  ⟨retryOperation_load_failed, retryOperation_retry_success,
    retryOperation_exhausted, retryOperation_other_error⟩

/-- Witness for C1: the spec's mock scenarios, at the default parameters.
An operation throwing a status-503 error twice then succeeding returns the
success value after exactly two retries with delays 2000ms then 4000ms; an
operation throwing an error whose message contains "load failed" throws the
translated error immediately with zero retries. -/
theorem C1_retryOperation_classification_witness :
    retryOperationDefault (fun n =>
      if n < 2 then Except.error ⟨"Overloaded", "", some 503, none⟩
      else Except.ok 7) = (.ok 7, [2000, 4000]) ∧
    retryOperationDefault (α := Nat) (fun _ =>
      Except.error ⟨"Load failed", "", none, none⟩) =
      (.error networkFailError, []) := by
  constructor
  · have h := (C1_retryOperation_classification (α := Nat)).2.1
      (fun n => if n < 2 then Except.error ⟨"Overloaded", "", some 503, none⟩
        else Except.ok 7) 3 2000 2 7 (by omega)
      (fun j hj => ⟨⟨"Overloaded", "", some 503, none⟩,
        by simp [show j < 2 from hj], by decide⟩) (by simp)
    simpa [retryOperationDefault] using h
  · have h := (C1_retryOperation_classification (α := Nat)).1
      (fun _ => Except.error ⟨"Load failed", "", none, none⟩) 3 2000
      ⟨"Load failed", "", none, none⟩ rfl (by decide)
    simpa [retryOperationDefault] using h

/-- C8: `resolveSeed` returns the given seed whenever it is defined and not
the sentinel -1; for `-1` or `undefined` it returns
`Math.floor(Math.random() * 2147483647)`, an integer that is non-negative
and strictly below 2147483647 for every possible `Math.random()` draw
(a real in [0, 1)), with no constraint tying two draws together. -/
theorem C8_resolveSeed_bounds :
    (∀ (s : Int) (rnd : ℚ), s ≠ -1 → resolveSeed (some s) rnd = s) ∧
    (∀ (seed : Option Int) (rnd : ℚ), 0 ≤ rnd → rnd < 1 →
      (seed = none ∨ seed = some (-1)) →
      0 ≤ resolveSeed seed rnd ∧ resolveSeed seed rnd < 2147483647) := by
  constructor
  · intro s rnd hs
    simp [resolveSeed, hs]
  · intro seed rnd h0 h1 hsent
    have hval : resolveSeed seed rnd = ⌊rnd * 2147483647⌋ := by
      rcases hsent with h | h <;> subst h <;> simp [resolveSeed]
    rw [hval]
    constructor
    · have : (0 : ℚ) ≤ rnd * 2147483647 := by positivity
      exact Int.floor_nonneg.mpr this
    · have : rnd * 2147483647 < 2147483647 := by nlinarith
      exact Int.floor_lt.mpr (by exact_mod_cast this)

/-- Witness for C8: `resolveSeed(42) = 42`, and at the concrete random draw
1/3 both `resolveSeed(-1)` and `resolveSeed(undefined)` land in
[0, 2147483647). -/
theorem C8_resolveSeed_bounds_witness :
    resolveSeed (some 42) (1/3) = 42 ∧
    (0 ≤ resolveSeed (some (-1)) (1/3) ∧ resolveSeed (some (-1)) (1/3) < 2147483647) ∧
    (0 ≤ resolveSeed none (1/3) ∧ resolveSeed none (1/3) < 2147483647) :=
  ⟨C8_resolveSeed_bounds.1 42 (1/3) (by decide),
    C8_resolveSeed_bounds.2 (some (-1)) (1/3) (by norm_num) (by norm_num) (Or.inr rfl),
    C8_resolveSeed_bounds.2 none (1/3) (by norm_num) (by norm_num) (Or.inl rfl)⟩

/-- One RGBA pixel of an `ImageData` buffer; channel values are the byte
values read from the canvas (0..255 in any well-formed buffer). -/
structure Px where
  r : Int
  g : Int
  b : Int
  a : Int
  deriving DecidableEq, Repr

/-- All color channels of the pixel are within the byte range produced by
`getImageData`. -/
def pxInRange (p : Px) : Prop :=
  0 ≤ p.r ∧ p.r ≤ 255 ∧ 0 ≤ p.g ∧ p.g ≤ 255 ∧ 0 ≤ p.b ∧ p.b ≤ 255

instance (p : Px) : Decidable (pxInRange p) := by
  unfold pxInRange; infer_instance

/-- JS `Math.round` (round half toward positive infinity). -/
def jsRound (x : ℚ) : Int := ⌊x + 1/2⌋

/-- Storing an integer into a `Uint8ClampedArray` slot clamps it to 0..255. -/
def byteClamp (z : Int) : Int := max 0 (min 255 z)

/-- One channel of the `compositeMaskResult` blending loop
(src/services/geminiService.ts:902-907): `Math.round(orig*(1-m) + res*m)`
with `m = maskRed/255`, stored into the clamped output array. -/
def blendChannel (o rs maskRed : Int) : Int :=
  byteClamp (jsRound ((o : ℚ) * (1 - (maskRed : ℚ) / 255) +
    (rs : ℚ) * ((maskRed : ℚ) / 255)))

/-- One output pixel of `compositeMaskResult`: all three color channels are
blended with the factor derived from the mask pixel's red channel, and the
alpha channel is forced to 255. -/
def compositePixel (orig res mask : Px) : Px :=
  ⟨blendChannel orig.r res.r mask.r,
   blendChannel orig.g res.g mask.r,
   blendChannel orig.b res.b mask.r, 255⟩

/-- Shallow embedding of `compositeMaskResult`
(src/services/geminiService.ts:862-924). The three buffers are the pixel
arrays read back after the original, the result and the mask have been
drawn at the original's dimensions (i.e. after resampling), indexed by
pixel number. -/
def compositeMaskResult (orig res mask : Nat → Px) : Nat → Px :=
  fun i => compositePixel (orig i) (res i) (mask i)

lemma jsRound_intCast (z : Int) : jsRound (z : ℚ) = z := by
  rw [jsRound, Int.floor_eq_iff]
  constructor <;> linarith

lemma byteClamp_of_mem (z : Int) (h0 : 0 ≤ z) (h255 : z ≤ 255) :
    byteClamp z = z := by
  rw [byteClamp]
  omega

lemma jsRound_nonneg (x : ℚ) (h : 0 ≤ x) : 0 ≤ jsRound x := by
  rw [jsRound]
  exact Int.floor_nonneg.mpr (by linarith)

lemma jsRound_le_255 (x : ℚ) (h : x ≤ 255) : jsRound x ≤ 255 := by
  rw [jsRound]
  have : ⌊x + 1/2⌋ < 256 := Int.floor_lt.mpr (by push_cast; linarith)
  omega

/-- For in-range channels the clamped store is the identity, so the stored
channel is exactly `Math.round(orig*(1-m) + res*m)`. -/
lemma blendChannel_formula (o rs maskRed : Int)
    (ho0 : 0 ≤ o) (ho : o ≤ 255) (hr0 : 0 ≤ rs) (hr : rs ≤ 255)
    (hm0 : 0 ≤ maskRed) (hm : maskRed ≤ 255) :
    blendChannel o rs maskRed =
      jsRound ((o : ℚ) * (1 - (maskRed : ℚ) / 255) +
        (rs : ℚ) * ((maskRed : ℚ) / 255)) := by
  rw [blendChannel]
  set x : ℚ := (o : ℚ) * (1 - (maskRed : ℚ) / 255) + (rs : ℚ) * ((maskRed : ℚ) / 255) with hx
  have hmu0 : (0 : ℚ) ≤ (maskRed : ℚ) / 255 := by positivity
  have hmu1 : (maskRed : ℚ) / 255 ≤ 1 := by
    rw [div_le_one (by norm_num)]
    exact_mod_cast hm
  have hxo : (0 : ℚ) ≤ x := by
    apply add_nonneg <;> apply mul_nonneg
    · exact_mod_cast ho0
    · linarith
    · exact_mod_cast hr0
    · exact hmu0
  have hx255 : x ≤ 255 := by
    have h1 : (o : ℚ) * (1 - (maskRed : ℚ) / 255) ≤ 255 * (1 - (maskRed : ℚ) / 255) := by
      apply mul_le_mul_of_nonneg_right _ (by linarith)
      exact_mod_cast ho
    have h2 : (rs : ℚ) * ((maskRed : ℚ) / 255) ≤ 255 * ((maskRed : ℚ) / 255) := by
      apply mul_le_mul_of_nonneg_right _ hmu0
      exact_mod_cast hr
    calc x ≤ 255 * (1 - (maskRed : ℚ) / 255) + 255 * ((maskRed : ℚ) / 255) := by
            rw [hx]; linarith
      _ = 255 := by ring
  exact byteClamp_of_mem _ (jsRound_nonneg x hxo) (jsRound_le_255 x hx255)

lemma blendChannel_black (o rs : Int) (h0 : 0 ≤ o) (h255 : o ≤ 255) :
    blendChannel o rs 0 = o := by
  rw [blendChannel]
  norm_num
  rw [jsRound_intCast]
  exact byteClamp_of_mem _ h0 h255

lemma blendChannel_white (o rs : Int) (h0 : 0 ≤ rs) (h255 : rs ≤ 255) :
    blendChannel o rs 255 = rs := by
  rw [blendChannel]
  norm_num
  rw [jsRound_intCast]
  exact byteClamp_of_mem _ h0 h255

/-- C4: `compositeMaskResult` computes, for every pixel and each RGB
channel, `round(original*(1-m) + result*m)` with `m = maskRed/255` (a value
in [0, 1]); consequently with an all-black mask (`m = 0` everywhere) the
output pixel equals the original's RGB channels exactly, and with an
all-white mask (`m = 255` everywhere) it equals the (resampled) result's
RGB channels exactly. -/
theorem C4_compositeMaskResult_blend (orig res mask : Nat → Px) (p : Nat)
    (ho : pxInRange (orig p)) (hr : pxInRange (res p))
    (hm0 : 0 ≤ (mask p).r) (hm255 : (mask p).r ≤ 255) :
    (0 ≤ ((mask p).r : ℚ) / 255 ∧ ((mask p).r : ℚ) / 255 ≤ 1) ∧
    ((compositeMaskResult orig res mask p).r =
        jsRound (((orig p).r : ℚ) * (1 - ((mask p).r : ℚ) / 255) +
          ((res p).r : ℚ) * (((mask p).r : ℚ) / 255)) ∧
      (compositeMaskResult orig res mask p).g =
        jsRound (((orig p).g : ℚ) * (1 - ((mask p).r : ℚ) / 255) +
          ((res p).g : ℚ) * (((mask p).r : ℚ) / 255)) ∧
      (compositeMaskResult orig res mask p).b =
        jsRound (((orig p).b : ℚ) * (1 - ((mask p).r : ℚ) / 255) +
          ((res p).b : ℚ) * (((mask p).r : ℚ) / 255)) ∧
      (compositeMaskResult orig res mask p).a = 255) ∧
    ((mask p).r = 0 →
      (compositeMaskResult orig res mask p).r = (orig p).r ∧
      (compositeMaskResult orig res mask p).g = (orig p).g ∧
      (compositeMaskResult orig res mask p).b = (orig p).b) ∧
    ((mask p).r = 255 →
      (compositeMaskResult orig res mask p).r = (res p).r ∧
      (compositeMaskResult orig res mask p).g = (res p).g ∧
      (compositeMaskResult orig res mask p).b = (res p).b) := by
  obtain ⟨hor0, hor, hog0, hog, hob0, hob⟩ := ho
  obtain ⟨hrr0, hrr, hrg0, hrg, hrb0, hrb⟩ := hr
  refine ⟨⟨by positivity, ?_⟩, ⟨?_, ?_, ?_, rfl⟩, ?_, ?_⟩
  · rw [div_le_one (by norm_num)]
    exact_mod_cast hm255
  · exact blendChannel_formula _ _ _ hor0 hor hrr0 hrr hm0 hm255
  · exact blendChannel_formula _ _ _ hog0 hog hrg0 hrg hm0 hm255
  · exact blendChannel_formula _ _ _ hob0 hob hrb0 hrb hm0 hm255
  · intro hblack
    refine ⟨?_, ?_, ?_⟩ <;>
      simp only [compositeMaskResult, compositePixel, hblack]
    · exact blendChannel_black _ _ hor0 hor
    · exact blendChannel_black _ _ hog0 hog
    · exact blendChannel_black _ _ hob0 hob
  · intro hwhite
    refine ⟨?_, ?_, ?_⟩ <;>
      simp only [compositeMaskResult, compositePixel, hwhite]
    · exact blendChannel_white _ _ hrr0 hrr
    · exact blendChannel_white _ _ hrg0 hrg
    · exact blendChannel_white _ _ hrb0 hrb

/-- Witness for C4: blending concrete pixels through an all-black mask
returns the original RGB values, and through an all-white mask the result
RGB values. -/
theorem C4_compositeMaskResult_blend_witness :
    ((compositeMaskResult (fun _ => ⟨10, 20, 30, 255⟩)
        (fun _ => ⟨100, 200, 50, 255⟩) (fun _ => ⟨0, 0, 0, 255⟩) 0).r = 10 ∧
      (compositeMaskResult (fun _ => ⟨10, 20, 30, 255⟩)
        (fun _ => ⟨100, 200, 50, 255⟩) (fun _ => ⟨0, 0, 0, 255⟩) 0).g = 20 ∧
      (compositeMaskResult (fun _ => ⟨10, 20, 30, 255⟩)
        (fun _ => ⟨100, 200, 50, 255⟩) (fun _ => ⟨0, 0, 0, 255⟩) 0).b = 30) ∧
    (compositeMaskResult (fun _ => ⟨10, 20, 30, 255⟩)
        (fun _ => ⟨100, 200, 50, 255⟩) (fun _ => ⟨255, 255, 255, 255⟩) 0).r = 100 :=
  ⟨(C4_compositeMaskResult_blend (fun _ => ⟨10, 20, 30, 255⟩)
      (fun _ => ⟨100, 200, 50, 255⟩) (fun _ => ⟨0, 0, 0, 255⟩) 0
      (by decide) (by decide) (by decide) (by decide)).2.2.1 rfl,
    ((C4_compositeMaskResult_blend (fun _ => ⟨10, 20, 30, 255⟩)
      (fun _ => ⟨100, 200, 50, 255⟩) (fun _ => ⟨255, 255, 255, 255⟩) 0
      (by decide) (by decide) (by decide) (by decide)).2.2.2 rfl).1⟩

/-- What the i-th remote sub-generation of `generateFittingImage` does:
throws an error, responds without an inline image part, or returns an
inline image payload. -/
inductive SubGen where
  | throws (e : JsError)
  | noImagePart
  | returns (img : String)
  deriving DecidableEq, Repr

/-- Whether the sub-generation produced an inline image part. -/
def returnsImage : SubGen → Bool
  | .returns _ => true
  | _ => false

/-- The data URL built from an inline image part
(src/services/geminiService.ts:492). -/
def dataUrlOf : SubGen → String
  | .returns img => "data:image/png;base64," ++ img
  | _ => ""

/-- The value the index-i generation promise resolves to (the body of
`generationPromises`, src/services/geminiService.ts:466-504): null when the
shared signal is aborted, null when the call throws (the catch handler
returns null), null when no inline image part is present, and otherwise the
data URL paired with `baseSeed + index`. -/
def subGenResult (aborted : Bool) (g : SubGen) (baseSeed : Int) (i : Nat) :
    Option (String × Int) :=
  if aborted then none
  else match g with
    | .throws _ => none
    | .noImagePart => none
    | .returns img => some ("data:image/png;base64," ++ img, baseSeed + i)

/-- `Promise.all`'s result array: promises settle in completion order
`order`, and each settling promise writes its value into its own slot
(index i). Slots start unfilled. -/
def promiseAllRun {α : Type} (task : Nat → α) (order : List Nat) (n : Nat) :
    List (Option α) :=
  order.foldl (fun slots i => slots.set i (some (task i))) (List.replicate n none)

/-- The Korean "no image data in response" error
(src/services/geminiService.ts:517). -/
def noImageDataMessage : String := "이미지 생성에 실패했습니다. (응답 데이터 없음)"

/-- The distinguished cancellation signal (src/services/geminiService.ts:508). -/
def cancelledMessage : String := "Cancelled"

/-- Shallow embedding of the parallel multi-image dispatch and aggregation
of `generateFittingImage` (src/services/geminiService.ts:462-518): launch
`numberOfImages` sub-generations, collect their settled values with
`Promise.all` under completion order `order`, throw `Cancelled` if the
signal aborted, drop null results, throw the no-image-data error if nothing
survives, and otherwise return the url list paired with the seed list. -/
def generateFittingDispatch (aborted : Bool) (gens : Nat → SubGen)
    (baseSeed : Int) (numberOfImages : Nat) (order : List Nat) :
    Except String (List String × List Int) :=
  let slots := promiseAllRun
    (fun i => subGenResult aborted (gens i) baseSeed i) order numberOfImages
  if aborted then .error cancelledMessage
  else
    let kept := slots.reduceOption.reduceOption
    if kept.length = 0 then .error noImageDataMessage
    else .ok (kept.map Prod.fst, kept.map Prod.snd)

/-- The request indices whose sub-generation produced an image, in request
order. -/
def survivorIdx (gens : Nat → SubGen) (n : Nat) : List Nat :=
  (List.range n).filter fun i => returnsImage (gens i)

lemma foldlSet_length {α : Type} (task : Nat → α) (order : List Nat)
    (slots : List (Option α)) :
    (order.foldl (fun s i => s.set i (some (task i))) slots).length =
      slots.length := by
  induction order generalizing slots with
  | nil => rfl
  | cons i rest ih => simp [List.foldl_cons, ih]

lemma foldlSet_getElem? {α : Type} (task : Nat → α) (order : List Nat)
    (slots : List (Option α)) (j : Nat) :
    (order.foldl (fun s i => s.set i (some (task i))) slots)[j]? =
      if j ∈ order ∧ j < slots.length then some (some (task j)) else slots[j]? := by
  induction order generalizing slots with
  | nil => simp
  | cons i rest ih =>
    rw [List.foldl_cons, ih (slots.set i (some (task i)))]
    simp only [List.length_set, List.mem_cons]
    by_cases hmem : j ∈ rest
    · by_cases hlen : j < slots.length
      · simp [hmem, hlen]
      · simp only [hmem, or_true, hlen, and_false, if_false]
        rw [List.getElem?_eq_none (by simpa using Nat.le_of_not_lt hlen),
          List.getElem?_eq_none (Nat.le_of_not_lt hlen)]
    · by_cases hij : i = j
      · subst hij
        by_cases hlen : i < slots.length
        · simp [hmem, hlen, List.getElem?_set_self hlen]
        · simp only [hmem, or_false, hlen, and_false, if_false]
          rw [List.getElem?_eq_none (by simpa using Nat.le_of_not_lt hlen),
            List.getElem?_eq_none (Nat.le_of_not_lt hlen)]
      · have hji : ¬j = i := fun h => hij h.symm
        simp [hmem, hji, List.getElem?_set_ne hij]

lemma promiseAllRun_eq {α : Type} (task : Nat → α) (order : List Nat) (n : Nat)
    (hord : ∀ i < n, i ∈ order) :
    promiseAllRun task order n = (List.range n).map fun i => some (task i) := by
  apply List.ext_getElem?
  intro j
  rw [promiseAllRun, foldlSet_getElem?]
  simp only [List.length_replicate, List.getElem?_map]
  by_cases hj : j < n
  · simp [hj, hord j hj, List.getElem?_range hj]
  · simp only [hj, and_false, if_false]
    rw [List.getElem?_eq_none (by simpa using Nat.le_of_not_lt hj),
      List.getElem?_eq_none (by simp [Nat.le_of_not_lt hj])]
    simp

lemma filterMap_congr_filter {α β : Type} (f : α → Option β) (p : α → Bool)
    (g : α → β) (h : ∀ a, f a = if p a then some (g a) else none) (l : List α) :
    l.filterMap f = (l.filter p).map g := by
  induction l with
  | nil => simp
  | cons a t ih =>
    rw [List.filterMap_cons, List.filter_cons, h a]
    cases hpa : p a <;> simp [ih]

lemma subGenResult_eq_if (gens : Nat → SubGen) (baseSeed : Int) (i : Nat) :
    subGenResult false (gens i) baseSeed i =
      if returnsImage (gens i) then some (dataUrlOf (gens i), baseSeed + i)
      else none := by
  cases h : gens i <;> simp [subGenResult, returnsImage, dataUrlOf]

lemma reduceOption_map_some {α β : Type} (l : List α) (f : α → Option β) :
    ((l.map fun a => some (f a)).reduceOption).reduceOption = l.filterMap f := by
  induction l with
  | nil => rfl
  | cons a t ih =>
    rw [List.map_cons, List.reduceOption_cons_of_some, List.filterMap_cons]
    cases h : f a
    · rw [List.reduceOption_cons_of_none, ih]
    · rw [List.reduceOption_cons_of_some, ih]

/-- When every request index settles (the completion order covers all of
them), the aggregation of `generateFittingDispatch` is the index-ordered
filter of the sub-generations that produced an image, each paired with the
seed of its own request index. -/
lemma generateFittingDispatch_eq (gens : Nat → SubGen) (baseSeed : Int)
    (n : Nat) (order : List Nat) (hord : ∀ i < n, i ∈ order) :
    generateFittingDispatch false gens baseSeed n order =
      if (survivorIdx gens n).length = 0 then .error noImageDataMessage
      else .ok ((survivorIdx gens n).map fun i => dataUrlOf (gens i),
        (survivorIdx gens n).map fun (i : Nat) => baseSeed + (i : Int)) := by
  rw [generateFittingDispatch, promiseAllRun_eq _ _ _ hord]
  simp only [Bool.false_eq_true, if_false]
  rw [reduceOption_map_some (List.range n)
    (fun i => subGenResult false (gens i) baseSeed i)]
  rw [filterMap_congr_filter _ (fun i => returnsImage (gens i))
    (fun (i : Nat) => (dataUrlOf (gens i), baseSeed + (i : Int)))
    (subGenResult_eq_if gens baseSeed) (List.range n)]
  simp only [List.length_map, List.map_map, Function.comp_def, survivorIdx]

/-- C6: in a fitting dispatch of `n` sub-generations, index `i` uses seed
`baseSeed + i`; `Promise.all` re-associates each settled value with its own
request index, so for every completion order covering all indices the
aggregated result is the same as for the in-order schedule, the seed list
is `baseSeed + i` over the surviving indices in increasing request order,
and the url list is aligned with it index by index. -/
theorem C6_fitting_seed_pairing_order (gens : Nat → SubGen) (baseSeed : Int)
    (n : Nat) (order : List Nat) (hord : ∀ i < n, i ∈ order) :
    generateFittingDispatch false gens baseSeed n order =
      generateFittingDispatch false gens baseSeed n (List.range n) ∧
    (∀ i img, gens i = .returns img →
      subGenResult false (gens i) baseSeed i =
        some (dataUrlOf (gens i), baseSeed + i)) ∧
    (∀ urls seeds,
      generateFittingDispatch false gens baseSeed n order = .ok (urls, seeds) →
      seeds = (survivorIdx gens n).map (fun (i : Nat) => baseSeed + (i : Int)) ∧
      urls = (survivorIdx gens n).map (fun i => dataUrlOf (gens i)) ∧
      (survivorIdx gens n).Sorted (· < ·)) := by
  refine ⟨?_, ?_, ?_⟩
  · rw [generateFittingDispatch_eq gens baseSeed n order hord,
      generateFittingDispatch_eq gens baseSeed n (List.range n)
        (fun i hi => List.mem_range.mpr hi)]
  · intro i img h
    simp [subGenResult, h, dataUrlOf]
  · intro urls seeds h
    rw [generateFittingDispatch_eq gens baseSeed n order hord] at h
    by_cases hz : (survivorIdx gens n).length = 0
    · rw [if_pos hz] at h
      exact absurd h (by simp)
    · rw [if_neg hz] at h
      simp only [Except.ok.injEq, Prod.mk.injEq] at h
      exact ⟨h.2.symm, h.1.symm,
        (List.pairwise_lt_range n).filter _⟩

/-- Witness for C6: three sub-generations with base seed 10 where index 1
fails, completing in order 2, 0, 1, aggregate to the urls of indices 0 and
2 paired with seeds 10 and 12, in request-index order. -/
theorem C6_fitting_seed_pairing_order_witness :
    generateFittingDispatch false
      (fun i => if i = 0 then SubGen.returns "A"
        else if i = 2 then SubGen.returns "C"
        else SubGen.throws ⟨"boom", "", none, none⟩) 10 3 [2, 0, 1] =
      .ok (["data:image/png;base64,A", "data:image/png;base64,C"], [10, 12]) := by
  have h := C6_fitting_seed_pairing_order
    (fun i => if i = 0 then SubGen.returns "A"
      else if i = 2 then SubGen.returns "C"
      else SubGen.throws ⟨"boom", "", none, none⟩) 10 3 [2, 0, 1]
    (by decide)
  rw [h.1]
  rfl

/-- C7: `generateFittingDispatch` never resolves successfully with an empty
url list — every `.ok` result carries at least one image — and when no
sub-generation produces an image (so zero results survive the null filter)
it throws the explicit no-image-data error. -/
theorem C7_fitting_empty_result_error :
    (∀ (aborted : Bool) (gens : Nat → SubGen) (baseSeed : Int) (n : Nat)
      (order : List Nat) (urls : List String) (seeds : List Int),
      generateFittingDispatch aborted gens baseSeed n order = .ok (urls, seeds) →
      urls ≠ []) ∧
    (∀ (gens : Nat → SubGen) (baseSeed : Int) (n : Nat) (order : List Nat),
      (∀ i < n, i ∈ order) → (∀ i < n, returnsImage (gens i) = false) →
      generateFittingDispatch false gens baseSeed n order =
        .error noImageDataMessage) := by
  constructor
  · intro aborted gens baseSeed n order urls seeds h
    by_cases ha : aborted = true
    · rw [ha] at h
      simp [generateFittingDispatch] at h
    · rw [Bool.not_eq_true] at ha
      rw [ha, generateFittingDispatch] at h
      simp only [Bool.false_eq_true, if_false] at h
      split at h
      · exact absurd h (by simp)
      · rename_i hk
        simp only [Except.ok.injEq, Prod.mk.injEq] at h
        intro hnil
        rw [← h.1, List.map_eq_nil_iff] at hnil
        simp [hnil] at hk
  · intro gens baseSeed n order hord hnone
    rw [generateFittingDispatch_eq gens baseSeed n order hord]
    have hempty : survivorIdx gens n = [] := by
      rw [survivorIdx, List.filter_eq_nil_iff]
      intro a ha
      simp [hnone a (List.mem_range.mp ha)]
    simp [hempty]

/-- Witness for C7: two sub-generations that both return no image part make
the whole dispatch fail with the no-image-data error. -/
theorem C7_fitting_empty_result_error_witness :
    generateFittingDispatch false (fun _ => SubGen.noImagePart) 5 2 [0, 1] =
      .error noImageDataMessage :=
  C7_fitting_empty_result_error.2 (fun _ => SubGen.noImagePart) 5 2 [0, 1]
    (by decide) (fun i _ => rfl)

/-- C10: a sub-generation that throws is converted to a null settled value
(the catch handler) rather than failing the whole dispatch; the dispatch
therefore still resolves successfully whenever at least one sub-generation
returns an image, and every successful result has url and seed lists of
equal length — one entry per surviving sub-generation. -/
theorem C10_fitting_partial_failure_tolerance :
    (∀ (e : JsError) (baseSeed : Int) (i : Nat),
      subGenResult false (.throws e) baseSeed i = none) ∧
    (∀ (aborted : Bool) (gens : Nat → SubGen) (baseSeed : Int) (n : Nat)
      (order : List Nat) (urls : List String) (seeds : List Int),
      generateFittingDispatch aborted gens baseSeed n order = .ok (urls, seeds) →
      urls.length = seeds.length) ∧
    (∀ (gens : Nat → SubGen) (baseSeed : Int) (n : Nat) (order : List Nat),
      (∀ i < n, i ∈ order) → (∃ i, i < n ∧ returnsImage (gens i) = true) →
      generateFittingDispatch false gens baseSeed n order =
        .ok ((survivorIdx gens n).map fun i => dataUrlOf (gens i),
          (survivorIdx gens n).map fun (i : Nat) => baseSeed + (i : Int)) ∧
        ((survivorIdx gens n).map fun i => dataUrlOf (gens i)).length =
          ((survivorIdx gens n).map fun (i : Nat) => baseSeed + (i : Int)).length) := by
  refine ⟨fun e baseSeed i => rfl, ?_, ?_⟩
  · intro aborted gens baseSeed n order urls seeds h
    by_cases ha : aborted = true
    · rw [ha] at h
      simp [generateFittingDispatch] at h
    · rw [Bool.not_eq_true] at ha
      rw [ha, generateFittingDispatch] at h
      simp only [Bool.false_eq_true, if_false] at h
      split at h
      · exact absurd h (by simp)
      · simp only [Except.ok.injEq, Prod.mk.injEq] at h
        rw [← h.1, ← h.2]
        simp
  · intro gens baseSeed n order hord hex
    obtain ⟨i, hi, hret⟩ := hex
    have hmem : i ∈ survivorIdx gens n :=
      List.mem_filter.mpr ⟨List.mem_range.mpr hi, by simp [hret]⟩
    have hnz : (survivorIdx gens n).length ≠ 0 := by
      intro h0
      rw [List.length_eq_zero] at h0
      simp [h0] at hmem
    rw [generateFittingDispatch_eq gens baseSeed n order hord, if_neg hnz]
    simp

/-- Witness for C10: with one throwing and one succeeding sub-generation
the dispatch resolves successfully, and the theorem applied to that
concrete success yields equal url/seed list lengths. -/
theorem C10_fitting_partial_failure_tolerance_witness :
    generateFittingDispatch false
      (fun i => if i = 1 then SubGen.returns "B"
        else SubGen.throws ⟨"boom", "", none, none⟩) 5 2 [1, 0] =
      .ok (["data:image/png;base64,B"], [6]) ∧
    (["data:image/png;base64,B"] : List String).length =
      ([6] : List Int).length := by
  constructor
  · rfl
  · exact C10_fitting_partial_failure_tolerance.2.1 false
      (fun i => if i = 1 then SubGen.returns "B"
        else SubGen.throws ⟨"boom", "", none, none⟩) 5 2 [1, 0]
      ["data:image/png;base64,B"] [6] (by rfl)

/-- Lifecycle status of a generation batch. -/
inductive BatchStatus where
  | loading
  | completed
  | error
  deriving DecidableEq, Repr

/-- One generation batch (src/unnamed/part_000:1619-1625); `date` and the
aspect-ratio snapshot are irrelevant to the claims and omitted. -/
structure BatchItem where
  id : String
  images : List String
  status : BatchStatus
  errorMsg : Option String
  deriving DecidableEq, Repr

/-- The slice of the studio state that `generateStudio` reads and writes. -/
structure StudioSlice where
  generatedBatches : List BatchItem
  numberOfImages : Nat
  error : Option String
  deriving DecidableEq, Repr

/-- The observable effects of one `generateStudio` call: the resulting
state, the live abort-controller registry (batch ids), and whether the
generation provider was invoked. -/
structure StudioStep where
  state : StudioSlice
  controllers : List String
  providerCalled : Bool
  deriving DecidableEq, Repr

/-- The count of batches currently in `loading` status
(src/unnamed/part_000:1610). -/
def loadingCount (st : StudioSlice) : Nat :=
  (st.generatedBatches.filter fun b => b.status == BatchStatus.loading).length

/-- Shallow embedding of `generateStudio` (src/unnamed/part_000:1609-1704):
reject when two batches are already loading; reject when no API key is
present; otherwise allocate an abort controller, prepend a new batch of
`numberOfImages` placeholder images in `loading` status, call the provider
(`fitting` is the outcome of the awaited `generateFittingImage` call), and
on success replace the batch's image list with the returned urls and mark
it completed, on a non-cancellation error mark it errored, and on
cancellation leave the state update to the cancel handler. -/
def generateStudio (st : StudioSlice) (controllers : List String)
    (hasKey : Bool) (batchId : String)
    (fitting : Except String (List String × List Int)) : StudioStep :=
  if 2 ≤ loadingCount st then ⟨st, controllers, false⟩
  else if !hasKey then ⟨st, controllers, false⟩
  else
    let newBatch : BatchItem :=
      ⟨batchId, List.replicate st.numberOfImages "placeholder", .loading, none⟩
    let st1 : StudioSlice :=
      { st with error := none, generatedBatches := newBatch :: st.generatedBatches }
    let ctrls1 := batchId :: controllers
    match fitting with
    | .ok (urls, _) =>
      ⟨{ st1 with generatedBatches := st1.generatedBatches.map fun b =>
          if b.id = batchId then { b with images := urls, status := .completed }
          else b },
        ctrls1.erase batchId, true⟩
    | .error msg =>
      if msg = cancelledMessage then ⟨st1, ctrls1, true⟩
      else
        ⟨{ st1 with
            generatedBatches := st1.generatedBatches.map fun b =>
              if b.id = batchId then { b with status := .error, errorMsg := some msg }
              else b,
            error := some msg },
          ctrls1.erase batchId, true⟩

/-- C5: starting a new generation while 2 batches are already in `loading`
status is rejected at the admission point: the state (and in particular the
batch list) is unchanged, no abort controller is allocated, the provider is
never called, and nothing is queued for later. -/
theorem C5_admission_ceiling (st : StudioSlice) (controllers : List String)
    (hasKey : Bool) (batchId : String)
    (fitting : Except String (List String × List Int))
    (h : 2 ≤ loadingCount st) :
    (generateStudio st controllers hasKey batchId fitting).state = st ∧
    (generateStudio st controllers hasKey batchId fitting).state.generatedBatches =
      st.generatedBatches ∧
    (generateStudio st controllers hasKey batchId fitting).controllers =
      controllers ∧
    (generateStudio st controllers hasKey batchId fitting).providerCalled =
      false := by
  simp [generateStudio, h]

/-- Witness for C5: with two loading batches already present, a third
generation attempt leaves everything untouched and never reaches the
provider. -/
theorem C5_admission_ceiling_witness :
    (generateStudio
        ⟨[⟨"a", ["placeholder"], BatchStatus.loading, none⟩,
          ⟨"b", ["placeholder"], BatchStatus.loading, none⟩], 1, none⟩
        [] true "c" (.ok (["u"], [1]))).state =
      ⟨[⟨"a", ["placeholder"], BatchStatus.loading, none⟩,
        ⟨"b", ["placeholder"], BatchStatus.loading, none⟩], 1, none⟩ ∧
    (generateStudio
        ⟨[⟨"a", ["placeholder"], BatchStatus.loading, none⟩,
          ⟨"b", ["placeholder"], BatchStatus.loading, none⟩], 1, none⟩
        [] true "c" (.ok (["u"], [1]))).providerCalled = false := by
  have h := C5_admission_ceiling
    ⟨[⟨"a", ["placeholder"], BatchStatus.loading, none⟩,
      ⟨"b", ["placeholder"], BatchStatus.loading, none⟩], 1, none⟩
    [] true "c" (.ok (["u"], [1])) (by decide)
  exact ⟨h.1, h.2.2.2⟩

/-- Counterexample to C2: a batch is created with
`numberOfImages = 2` placeholder images, but when one of the two
sub-generations fails and the other succeeds, the completion update
replaces the batch's image list with the 1-element url list — the list
length changes from 2 to 1, so it does not stay equal to the requested
`numberOfImages`. -/
theorem C2_batch_image_count_counterexample :
    (⟨"b1", List.replicate 2 "placeholder", BatchStatus.loading, none⟩ :
      BatchItem).images.length = 2 ∧
    ((generateStudio ⟨[], 2, none⟩ [] true "b1"
        (generateFittingDispatch false
          (fun i => if i = 0 then SubGen.returns "A"
            else SubGen.throws ⟨"boom", "", none, none⟩) 7 2 (List.range 2))
      ).state.generatedBatches.map fun b => (b.id, b.images.length)) =
      [("b1", 1)] := by
  exact ⟨rfl, rfl⟩

lemma map_untouched_batches (l : List BatchItem) (batchId : String)
    (f : BatchItem → BatchItem) (hfresh : ∀ b ∈ l, b.id ≠ batchId) :
    l.map (fun b => if b.id = batchId then f b else b) = l := by
  have h : ∀ b ∈ l, (if b.id = batchId then f b else b) = id b :=
    fun b hb => by simp [hfresh b hb]
  rw [List.map_congr_left h, List.map_id]

/-- C2 amended: a batch is created with exactly `numberOfImages`
placeholder images; a failed (non-cancelled) generation leaves the image
list unchanged (placeholders, length `numberOfImages`) and only flips the
status; a successful generation replaces the image list wholesale with the
returned urls, whose length is the number of sub-generations that produced
an image — at least 1 and at most `numberOfImages`, and equal to
`numberOfImages` exactly when every sub-generation produced an image. -/
theorem C2_batch_image_count (st : StudioSlice) (controllers : List String)
    (batchId : String) (gens : Nat → SubGen) (baseSeed : Int)
    (order : List Nat) (hadm : loadingCount st < 2)
    (hfresh : ∀ b ∈ st.generatedBatches, b.id ≠ batchId)
    (hord : ∀ i < st.numberOfImages, i ∈ order) :
    (∀ msg, msg ≠ cancelledMessage →
      (generateStudio st controllers true batchId
          (.error msg)).state.generatedBatches =
        ⟨batchId, List.replicate st.numberOfImages "placeholder",
          .error, some msg⟩ :: st.generatedBatches) ∧
    (∀ urls seeds,
      generateFittingDispatch false gens baseSeed st.numberOfImages order =
        .ok (urls, seeds) →
      (generateStudio st controllers true batchId
          (.ok (urls, seeds))).state.generatedBatches =
        ⟨batchId, urls, .completed, none⟩ :: st.generatedBatches ∧
      urls.length = (survivorIdx gens st.numberOfImages).length ∧
      1 ≤ urls.length ∧ urls.length ≤ st.numberOfImages ∧
      (urls.length = st.numberOfImages ↔
        ∀ i < st.numberOfImages, returnsImage (gens i) = true)) := by
  have hle : ¬2 ≤ loadingCount st := Nat.not_le.mpr hadm
  constructor
  · intro msg hmsg
    simp only [generateStudio, hle, if_false, Bool.not_true,
      Bool.false_eq_true, hmsg, List.map_cons, if_pos rfl]
    rw [map_untouched_batches st.generatedBatches batchId _ hfresh]
    simp
  · intro urls seeds h
    rw [generateFittingDispatch_eq gens baseSeed st.numberOfImages order hord]
      at h
    by_cases hz : (survivorIdx gens st.numberOfImages).length = 0
    · rw [if_pos hz] at h
      exact absurd h (by simp)
    · rw [if_neg hz] at h
      simp only [Except.ok.injEq, Prod.mk.injEq] at h
      have hulen : urls.length = (survivorIdx gens st.numberOfImages).length := by
        rw [← h.1, List.length_map]
      refine ⟨?_, hulen, ?_, ?_, ?_, ?_⟩
      · simp only [generateStudio, hle, if_false, Bool.not_true,
          Bool.false_eq_true, List.map_cons, if_pos rfl]
        rw [map_untouched_batches st.generatedBatches batchId _ hfresh]
        simp
      · omega
      · rw [hulen]
        calc (survivorIdx gens st.numberOfImages).length
            ≤ (List.range st.numberOfImages).length :=
              List.length_filter_le _ _
          _ = st.numberOfImages := List.length_range st.numberOfImages
      · intro hN
        rw [hulen] at hN
        have hlen2 : (survivorIdx gens st.numberOfImages).length =
            (List.range st.numberOfImages).length := by
          rw [hN, List.length_range]
        have hfull : survivorIdx gens st.numberOfImages =
            List.range st.numberOfImages :=
          (List.filter_sublist _).eq_of_length hlen2
        intro i hi
        exact List.filter_eq_self.mp hfull i (List.mem_range.mpr hi)
      · intro hall
        rw [hulen, survivorIdx,
          List.filter_eq_self.mpr fun a ha => hall a (List.mem_range.mp ha),
          List.length_range]

/-- Witness for C2 (amended): with two succeeding sub-generations, a fresh
batch over an empty studio ends completed with both urls in place (length
equal to the requested 2). -/
theorem C2_batch_image_count_witness :
    (generateStudio ⟨[], 2, none⟩ [] true "b1"
        (.ok (["data:image/png;base64,A", "data:image/png;base64,B"],
          [7, 8]))).state.generatedBatches =
      [⟨"b1", ["data:image/png;base64,A", "data:image/png;base64,B"],
        .completed, none⟩] ∧
    (["data:image/png;base64,A", "data:image/png;base64,B"] :
      List String).length = 2 := by
  have h := (C2_batch_image_count ⟨[], 2, none⟩ [] "b1"
    (fun i => if i = 0 then SubGen.returns "A" else SubGen.returns "B")
    7 (List.range 2) (by decide) (by simp) (by decide)).2
    ["data:image/png;base64,A", "data:image/png;base64,B"] [7, 8] (by rfl)
  exact ⟨h.1, h.2.2.2.2.mpr (by decide)⟩

/-- Running state of the mask scan loop of `cropMaskedRegion`
(src/services/geminiService.ts:683-692): the min/max coordinates of pixels
whose red channel exceeds 128, plus the `hasWhite` flag, as mutated by the
nested pixel loops. -/
structure MaskScan where
  minX : Nat
  minY : Nat
  maxX : Nat
  maxY : Nat
  hasWhite : Bool
  deriving DecidableEq, Repr

/-- One iteration of the scan: `if (mdata[(y*W+x)*4] > 128) { ... }`. -/
def scanPixel (red : Nat → Nat → Nat) (y : Nat) (acc : MaskScan) (x : Nat) :
    MaskScan :=
  if red x y > 128 then
    { minX := if x < acc.minX then x else acc.minX,
      minY := if y < acc.minY then y else acc.minY,
      maxX := if x > acc.maxX then x else acc.maxX,
      maxY := if y > acc.maxY then y else acc.maxY,
      hasWhite := true }
  else acc

/-- The full nested scan over all pixels, starting from
`minX = W, minY = H, maxX = 0, maxY = 0, hasWhite = false`. -/
def scanMask (W H : Nat) (red : Nat → Nat → Nat) : MaskScan :=
  (List.range H).foldl
    (fun acc y => (List.range W).foldl (scanPixel red y) acc)
    ⟨W, H, 0, 0, false⟩

/-- The crop rectangle returned by `cropMaskedRegion`. -/
structure CropBox where
  x : Int
  y : Int
  cropW : Int
  cropH : Int
  deriving DecidableEq, Repr

/-- Shallow embedding of the bounding-box computation of `cropMaskedRegion`
(src/services/geminiService.ts:662-716): scan the mask's red channel; if no
pixel exceeds 128 resolve the null sentinel; otherwise pad the box by
`padding` on each side and clamp it to the image bounds. `red x y` is the
red channel of the mask pixel at (x, y). -/
def cropMaskedRegion (W H : Nat) (red : Nat → Nat → Nat) (padding : Int) :
    Option CropBox :=
  let s := scanMask W H red
  if s.hasWhite = false then none
  else
    let x := max 0 ((s.minX : Int) - padding)
    let y := max 0 ((s.minY : Int) - padding)
    let x2 := min (W : Int) ((s.maxX : Int) + padding)
    let y2 := min (H : Int) ((s.maxY : Int) + padding)
    some ⟨x, y, x2 - x, y2 - y⟩

/-- The user-facing "no selection" error of `generateInpainting`
(src/services/geminiService.ts:795). -/
def noMaskMessage : String :=
  "마스크 영역을 인식할 수 없습니다. 편집할 영역을 브러시로 그린 후 다시 시도해주세요."

/-- Shallow embedding of the admission control flow of `generateInpainting`
(src/services/geminiService.ts:780-855): the mask's bounding box is
computed first (with padding 60); the null sentinel throws the user-facing
no-selection error before the remote model is ever reached, and only with
a box in hand is the provider called (`provider` is the outcome of that
remote call; the Bool records whether it was issued). -/
def generateInpainting (W H : Nat) (red : Nat → Nat → Nat)
    (provider : Except String String) : Except String String × Bool :=
  match cropMaskedRegion W H red 60 with
  | none => (.error noMaskMessage, false)
  | some _ =>
    match provider with
    | .error e => (.error e, true)
    | .ok img => (.ok img, true)

lemma scanPixel_foldl_id (red : Nat → Nat → Nat) (y : Nat) (xs : List Nat)
    (acc : MaskScan) (h : ∀ x ∈ xs, red x y ≤ 128) :
    xs.foldl (scanPixel red y) acc = acc := by
  induction xs generalizing acc with
  | nil => rfl
  | cons x t ih =>
    rw [List.foldl_cons, scanPixel, if_neg (by
      have := h x (List.mem_cons_self x t)
      omega)]
    exact ih acc fun a ha => h a (List.mem_cons_of_mem x ha)

lemma scanMask_no_white (W H : Nat) (red : Nat → Nat → Nat)
    (h : ∀ x < W, ∀ y < H, red x y ≤ 128) :
    scanMask W H red = ⟨W, H, 0, 0, false⟩ := by
  rw [scanMask]
  have houter : ∀ (ys : List Nat) (acc : MaskScan), (∀ y ∈ ys, y < H) →
      ys.foldl (fun acc y => (List.range W).foldl (scanPixel red y) acc) acc =
        acc := by
    intro ys
    induction ys with
    | nil => intro acc _; rfl
    | cons y t ih =>
      intro acc hy
      rw [List.foldl_cons, scanPixel_foldl_id red y (List.range W) acc
        (fun x hx => h x (List.mem_range.mp hx) y (hy y (List.mem_cons_self y t)))]
      exact ih acc fun a ha => hy a (List.mem_cons_of_mem y ha)
  exact houter (List.range H) _ fun y hy => List.mem_range.mp hy

/-- C9: when no mask pixel's red channel exceeds 128, the bounding-box
extraction returns the null sentinel, and `generateInpainting` fails with
the user-facing no-selection error without ever calling the provider — it
never proceeds as a silent no-op. -/
theorem C9_inpainting_no_selection (W H : Nat) (red : Nat → Nat → Nat)
    (provider : Except String String)
    (h : ∀ x < W, ∀ y < H, red x y ≤ 128) :
    cropMaskedRegion W H red 60 = none ∧
    generateInpainting W H red provider = (.error noMaskMessage, false) := by
  have hcrop : cropMaskedRegion W H red 60 = none := by
    rw [cropMaskedRegion, scanMask_no_white W H red h]
    rfl
  exact ⟨hcrop, by simp [generateInpainting, hcrop]⟩

/-- Witness for C9: an all-black 2x2 mask yields the null sentinel and the
loud no-selection failure with no provider call, even though the provider
would have succeeded. -/
theorem C9_inpainting_no_selection_witness :
    cropMaskedRegion 2 2 (fun _ _ => 0) 60 = none ∧
    generateInpainting 2 2 (fun _ _ => 0) (.ok "img") =
      (.error noMaskMessage, false) :=
  C9_inpainting_no_selection 2 2 (fun _ _ => 0) (.ok "img")
    (fun x _ y _ => by simp)

/-- The user zoom factor of the geometric transform
(src/services/geminiService.ts:1042): `1 + zoom/100` for positive zoom,
`1/(1 + |zoom|/100)` for negative zoom. -/
def zoomScale (zoom : ℚ) : ℚ :=
  if zoom > 0 then 1 + zoom / 100 else 1 / (1 + |zoom| / 100)

/-- One canvas-context operation of the geometric-transform pipeline, with
its parameters: `rotateDeg` records the rotation angle in degrees,
`skewTilt` the tilt angle whose vertical-skew factor is
`tan(tilt*pi/180) * 0.3`, `scaleZoom` the already-computed rational zoom
factor, and `scaleFill` a uniform fill-scale step compensating the given
rotation/tilt (the step the spec describes). -/
inductive CanvasOp where
  | translateCenter (w h : ℚ)
  | rotateDeg (deg : ℚ)
  | scaleFill (rotation tilt : ℚ)
  | skewTilt (tilt : ℚ)
  | scaleZoom (factor : ℚ)
  | drawImageCentered (w h : ℚ)
  deriving DecidableEq, Repr

/-- Outcome of `applyGeometricTransforms`: the input buffer returned
unchanged (no re-encoding), or a render performed by the recorded
operation sequence. -/
inductive GeoResult where
  | unchanged
  | rendered (ops : List CanvasOp)
  deriving DecidableEq, Repr

/-- Shallow embedding of `applyGeometricTransforms`
(src/services/geminiService.ts:1012-1052, the variant taking rotation, tilt
and zoom) as the ordered sequence of canvas operations it issues on a
`w x h` image: short-circuit when all three parameters are zero, otherwise
translate to center, rotate (when rotation is nonzero), vertical-skew
(when tilt is nonzero), zoom-scale (when zoom is nonzero), then draw the
image centered. The other variant of the function in the repository
(src/services/geminiService.ts:2637-2663) takes zoom only and issues the
translate/zoom/draw subsequence. -/
def applyGeometricTransforms (w h rotation tilt zoom : ℚ) : GeoResult :=
  if rotation = 0 ∧ tilt = 0 ∧ zoom = 0 then .unchanged
  else
    .rendered
      ([CanvasOp.translateCenter (w / 2) (h / 2)] ++
        (if rotation ≠ 0 then [CanvasOp.rotateDeg rotation] else []) ++
        (if tilt ≠ 0 then [CanvasOp.skewTilt tilt] else []) ++
        (if zoom ≠ 0 then [CanvasOp.scaleZoom (zoomScale zoom)] else []) ++
        [CanvasOp.drawImageCentered w h])

/-- The pipeline as the specification words it (spec section 4.1,
`applyGeometricTransform`): translate to center, rotate by the rotation
angle, scale by the computed fill-scale whenever rotation or tilt is
nonzero, vertical-skew by the tilt-derived factor, scale by the user zoom
factor, draw centered; same all-zero short-circuit. Kept separate from the
source embedding so the two can be compared. -/
def specGeometricTransforms (w h rotation tilt zoom : ℚ) : GeoResult :=
  if rotation = 0 ∧ tilt = 0 ∧ zoom = 0 then .unchanged
  else
    .rendered
      ([CanvasOp.translateCenter (w / 2) (h / 2),
        CanvasOp.rotateDeg rotation] ++
        (if rotation ≠ 0 ∨ tilt ≠ 0 then [CanvasOp.scaleFill rotation tilt]
          else []) ++
        [CanvasOp.skewTilt tilt, CanvasOp.scaleZoom (zoomScale zoom),
          CanvasOp.drawImageCentered w h])

/-- Shallow embedding of `computeFillScaleForShears`
(src/services/geminiService.ts:93-104 and 2620-2631): the minimal uniform
scale keeping all four inverse-mapped canvas corners of a `w x h` canvas
inside the half-width/half-height bounds under the two shears. The
function is defined in the source but never called by any variant of
`applyGeometricTransforms`. -/
def computeFillScaleForShears (w h shearX skewY : ℚ) : ℚ :=
  let hw := w / 2
  let hh := h / 2
  let corners : List (ℚ × ℚ) := [(0, 0), (w, 0), (0, h), (w, h)]
  corners.foldl
    (fun maxFs c =>
      let tx := c.1 - hw
      let ty := c.2 - hh
      let iy := ty - skewY * tx
      let ix := tx - shearX * iy
      max maxFs (max (|ix| / hw) (|iy| / hh))) 1

/-- Counterexample to C3: at rotation 0, tilt 45, zoom 0 on a 100x100
image, the code issues translate-skew-draw with no fill-scale step, while
the claimed pipeline contains a fill-scale step (tilt is nonzero), so the
two differ; and the omitted step is not a no-op there — the source's own
fill-scale formula gives 1.3 for the 45-degree tilt's skew factor 0.3, not
1. -/
theorem C3_applyGeometricTransforms_counterexample :
    applyGeometricTransforms 100 100 0 45 0 =
      .rendered [CanvasOp.translateCenter 50 50, CanvasOp.skewTilt 45,
        CanvasOp.drawImageCentered 100 100] ∧
    specGeometricTransforms 100 100 0 45 0 =
      .rendered [CanvasOp.translateCenter 50 50, CanvasOp.rotateDeg 0,
        CanvasOp.scaleFill 0 45, CanvasOp.skewTilt 45,
        CanvasOp.scaleZoom 1, CanvasOp.drawImageCentered 100 100] ∧
    applyGeometricTransforms 100 100 0 45 0 ≠
      specGeometricTransforms 100 100 0 45 0 ∧
    computeFillScaleForShears 100 100 0 (3/10) = 13/10 := by
  have h1 : applyGeometricTransforms 100 100 0 45 0 =
      .rendered [CanvasOp.translateCenter 50 50, CanvasOp.skewTilt 45,
        CanvasOp.drawImageCentered 100 100] := by
    rw [applyGeometricTransforms]
    norm_num
  have h2 : specGeometricTransforms 100 100 0 45 0 =
      .rendered [CanvasOp.translateCenter 50 50, CanvasOp.rotateDeg 0,
        CanvasOp.scaleFill 0 45, CanvasOp.skewTilt 45,
        CanvasOp.scaleZoom 1, CanvasOp.drawImageCentered 100 100] := by
    rw [specGeometricTransforms]
    norm_num [zoomScale]
  refine ⟨h1, h2, ?_, ?_⟩
  · rw [h1, h2]
    intro hcontra
    simp at hcontra
  · rw [computeFillScaleForShears]
    norm_num [List.foldl_cons, List.foldl_nil, abs]

/-- C3 amended: `applyGeometricTransforms` applies, in this order:
translate to canvas center, rotate by the rotation angle (emitted only when
rotation is nonzero), vertical-skew by the tilt-derived factor (only when
tilt is nonzero), scale by the user zoom factor — `1 + zoom/100` for
positive zoom, `1/(1 + |zoom|/100)` for negative zoom — (only when zoom is
nonzero), then draw the image centered; no fill-scale step is ever
applied; and it returns the input buffer unchanged, without re-encoding,
exactly when rotation, tilt and zoom are all zero. -/
theorem C3_applyGeometricTransforms_order (w h rotation tilt zoom : ℚ) :
    (applyGeometricTransforms w h rotation tilt zoom = .unchanged ↔
      rotation = 0 ∧ tilt = 0 ∧ zoom = 0) ∧
    (0 < zoom → zoomScale zoom = 1 + zoom / 100) ∧
    (zoom < 0 → zoomScale zoom = 1 / (1 + |zoom| / 100)) ∧
    (∀ ops, applyGeometricTransforms w h rotation tilt zoom = .rendered ops →
      ops = [CanvasOp.translateCenter (w / 2) (h / 2)] ++
        (if rotation ≠ 0 then [CanvasOp.rotateDeg rotation] else []) ++
        (if tilt ≠ 0 then [CanvasOp.skewTilt tilt] else []) ++
        (if zoom ≠ 0 then [CanvasOp.scaleZoom (zoomScale zoom)] else []) ++
        [CanvasOp.drawImageCentered w h] ∧
      ∀ r t, CanvasOp.scaleFill r t ∉ ops) := by
  refine ⟨?_, ?_, ?_, ?_⟩
  · rw [applyGeometricTransforms]
    split_ifs with hc <;> simp [hc]
  · intro hz
    rw [zoomScale, if_pos hz]
  · intro hz
    rw [zoomScale, if_neg (by linarith)]
  · intro ops hops
    rw [applyGeometricTransforms] at hops
    by_cases hc : rotation = 0 ∧ tilt = 0 ∧ zoom = 0
    · rw [if_pos hc] at hops
      exact absurd hops (by simp)
    · rw [if_neg hc] at hops
      simp only [GeoResult.rendered.injEq] at hops
      refine ⟨hops.symm, ?_⟩
      intro r t hmem
      rw [← hops] at hmem
      by_cases h1 : rotation = 0 <;> by_cases h2 : tilt = 0 <;>
        by_cases h3 : zoom = 0 <;> simp [h1, h2, h3] at hmem

/-- Witness for C3 (amended): with rotation 30, tilt 45 and zoom -50 on a
200x100 image, the pipeline issues translate, rotate, skew, zoom by 2/3
(that is, 1/(1 + 50/100)) and the centered draw, in that order, with no
fill-scale step. -/
theorem C3_applyGeometricTransforms_order_witness :
    applyGeometricTransforms 200 100 30 45 (-50) =
      .rendered [CanvasOp.translateCenter 100 50, CanvasOp.rotateDeg 30,
        CanvasOp.skewTilt 45, CanvasOp.scaleZoom (2/3),
        CanvasOp.drawImageCentered 200 100] ∧
    CanvasOp.scaleFill 30 45 ∉
      [CanvasOp.translateCenter 100 50, CanvasOp.rotateDeg 30,
        CanvasOp.skewTilt 45, CanvasOp.scaleZoom (2/3),
        CanvasOp.drawImageCentered 200 100] := by
  have heval : applyGeometricTransforms 200 100 30 45 (-50) =
      .rendered [CanvasOp.translateCenter 100 50, CanvasOp.rotateDeg 30,
        CanvasOp.skewTilt 45, CanvasOp.scaleZoom (2/3),
        CanvasOp.drawImageCentered 200 100] := by
    rw [applyGeometricTransforms]
    norm_num [zoomScale, abs]
  have h := (C3_applyGeometricTransforms_order 200 100 30 45 (-50)).2.2.2
    _ heval
  exact ⟨heval, h.2 30 45⟩
